import Mathlib

/-!
Shallow embedding of the Daytona TypeScript SDK lifecycle-polling and
session-command core (Workspace.start/stop/waitUntilStarted/waitUntilStopped,
Daytona.create, Process.executeSessionCommand), together with theorems about
its timeout, polling-count and error-discrimination behaviour.

Remote interaction is modelled by explicit environments: the state returned by
the i-th status read, the duration of each remote call in milliseconds, and the
outcomes of the side-effecting calls.  Wall-clock time is rational milliseconds
(the source samples Date.now() and compares against timeout * 1000).  The
unbounded while-loop of the source is embedded with an explicit fuel parameter
(the "test-injected max-iteration guard" of the design notes); exhausting fuel
is reported by a dedicated constructor, distinct from every real outcome.
-/

namespace DaytonaSDK

/-- Sandbox lifecycle states reported by the workspace API.  The polling code
compares the returned state against the string literals "started", "stopped"
and "error"; all other values act as non-terminal. -/
inductive WorkspaceState where
  | creating
  | starting
  | started
  | stopping
  | stopped
  | error
  | unknown
  deriving DecidableEq, Repr

/-- Rendering of an optional server-supplied reason inside a template string:
JavaScript renders an undefined interpolant as the text "undefined". -/
def optReason : Option String → String
  | none => "undefined"
  | some s => s

/-- The DaytonaError values thrown by the embedded core, one constructor per
distinct throw site / message template of the source. -/
inductive DaytonaError where
  /-- "Timeout must be a non-negative number" (negative-timeout guard). -/
  | invalidTimeout
  /-- "autoStopInterval must be a non-negative integer". -/
  | invalidAutoStopInterval
  /-- waitUntilStarted observed state "error"; carries data.errorReason. -/
  | startFailed (reason : Option String)
  /-- waitUntilStopped observed state "error"; carries data.errorReason. -/
  | stopFailed (reason : Option String)
  /-- "Workspace failed to become ready within the timeout period". -/
  | startTimedOut
  /-- "Workspace failed to become stopped within the timeout period". -/
  | stopTimedOut
  /-- "Operation timed out": the axios response interceptor maps an HTTP
  timeout (AxiosError whose message includes "timeout of") to this error. -/
  | operationTimedOut
  /-- Any other transport or server error surfaced by the interceptor. -/
  | transport (msg : String)
  /-- Rewrap produced by the catch block of Daytona.create. -/
  | createTimedOut (budget : ℚ)
  deriving DecidableEq, Repr

/-- The message carried by each DaytonaError, following the template strings
of the source. -/
def DaytonaError.message : DaytonaError → String
  | .invalidTimeout => "Timeout must be a non-negative number"
  | .invalidAutoStopInterval => "autoStopInterval must be a non-negative integer"
  | .startFailed r =>
      "Workspace failed to start with status: error, error reason: " ++ optReason r
  | .stopFailed r =>
      "Workspace failed to stop with status: error, error reason: " ++ optReason r
  | .startTimedOut => "Workspace failed to become ready within the timeout period"
  | .stopTimedOut => "Workspace failed to become stopped within the timeout period"
  | .operationTimedOut => "Operation timed out"
  | .transport m => m
  | .createTimedOut t =>
      "Failed to create and start workspace within " ++ toString t ++
        " seconds. Operation timed out."

/-- String containment, modelling JavaScript String.prototype.includes. -/
def strContains (s pat : String) : Bool :=
  (List.range (s.length + 1)).any fun i => pat.isPrefixOf (String.drop s i)

/-- The remote side of the polling loop: the state and errorReason returned by
the i-th getWorkspace status read (0-indexed), and how many milliseconds that
read takes. -/
structure PollEnv where
  states : Nat → WorkspaceState
  errorReason : Nat → Option String
  readDur : Nat → ℚ

/-- Fixed poll interval between status checks: 100 ms in the source. -/
def checkInterval : ℚ := 100

/-- Outcome of one run of the polling loop.  Every constructor records the
number of status reads issued.  fuelOut is the artifact of the fuel bound:
the loop was still polling when the iteration guard ran out. -/
inductive WaitResult where
  | ok (reads : Nat)
  | stateError (reads : Nat) (reason : Option String)
  | timedOut (reads : Nat)
  | fuelOut (reads : Nat)
  | invalidArg
  deriving DecidableEq, Repr

/-- Number of status reads issued during the run (invalidArg is raised before
the loop, hence zero reads). -/
def WaitResult.reads : WaitResult → Nat
  | .ok n => n
  | .stateError n _ => n
  | .timedOut n => n
  | .fuelOut n => n
  | .invalidArg => 0

/-- Does this run end in the Timeout failure of the waiter? -/
def WaitResult.isTimedOut : WaitResult → Bool
  | .timedOut _ => true
  | _ => false

/-- The while-loop shared by waitUntilStarted and waitUntilStopped.
budgetMs is timeout * 1000; elapsed is Date.now() - startTime at the loop
head; i counts status reads so far.  The loop head checks
(timeout === 0 || elapsed < timeout * 1000); then one status read is issued,
the returned state is compared against the target and against "error", and
otherwise the loop sleeps checkInterval ms and retries (so the next head
check sees elapsed grown by the read duration plus the sleep). -/
def waitLoop (env : PollEnv) (target : WorkspaceState) (budgetMs elapsed : ℚ)
    (i fuel : Nat) : WaitResult :=
  match fuel with
  | 0 => .fuelOut i
  | fuel + 1 =>
    if budgetMs = 0 ∨ elapsed < budgetMs then
      let st := env.states i
      if st = target then .ok (i + 1)
      else if st = WorkspaceState.error then .stateError (i + 1) (env.errorReason i)
      else waitLoop env target budgetMs (elapsed + env.readDur i + checkInterval) (i + 1) fuel
    else .timedOut i

/-- Wall-clock milliseconds elapsed at the head of the i-th loop iteration:
the durations of the first i status reads plus i sleeps of checkInterval. -/
def elapsedAt (env : PollEnv) : Nat → ℚ
  | 0 => 0
  | i + 1 => elapsedAt env i + env.readDur i + checkInterval

/-- Workspace.waitUntilStarted(timeout = 60): reject negative timeouts before
any remote call, then poll for state "started". -/
def Workspace.waitUntilStarted (env : PollEnv) (fuel : Nat) (timeout : ℚ := 60) :
    WaitResult :=
  if timeout < 0 then .invalidArg
  else waitLoop env WorkspaceState.started (timeout * 1000) 0 0 fuel

/-- Workspace.waitUntilStopped(timeout = 60): reject negative timeouts before
any remote call, then poll for state "stopped". -/
def Workspace.waitUntilStopped (env : PollEnv) (fuel : Nat) (timeout : ℚ := 60) :
    WaitResult :=
  if timeout < 0 then .invalidArg
  else waitLoop env WorkspaceState.stopped (timeout * 1000) 0 0 fuel

/-- Result of the composed start/stop operation: how many mutating requests
(startWorkspace / stopWorkspace) were issued, and the waiter outcome. -/
structure MutateResult where
  mutCalls : Nat
  wait : WaitResult
  deriving DecidableEq, Repr

/-- Workspace.start(timeout = 60): reject negative timeouts before any remote
call; otherwise issue the mutating startWorkspace request (taking mutDur ms),
then call the waiter with (timeout ? timeout - elapsed / 1000 : 0).
Transport failures of the mutating call itself propagate unchanged in the
source and are outside the scope of this model. -/
def Workspace.start (env : PollEnv) (mutDur : ℚ) (fuel : Nat) (timeout : ℚ := 60) :
    MutateResult :=
  if timeout < 0 then ⟨0, .invalidArg⟩
  else ⟨1, Workspace.waitUntilStarted env fuel
    (if timeout = 0 then 0 else timeout - mutDur / 1000)⟩

/-- Workspace.stop(timeout = 60), symmetric to start. -/
def Workspace.stop (env : PollEnv) (mutDur : ℚ) (fuel : Nat) (timeout : ℚ := 60) :
    MutateResult :=
  if timeout < 0 then ⟨0, .invalidArg⟩
  else ⟨1, Workspace.waitUntilStopped env fuel
    (if timeout = 0 then 0 else timeout - mutDur / 1000)⟩

/-- SessionExecuteResponse returned by the session-command endpoint: the
command id, the inline output for a synchronous run, and the exit code,
populated only once the command has completed.  A nonzero exit code lives in
the success payload, not in the error channel. -/
structure SessionExecuteResponse where
  cmdId : Option String
  output : Option String
  exitCode : Option Int
  deriving DecidableEq, Repr

/-- Request option computed by Process.executeSessionCommand from its
optional timeout argument: (timeout ? structure with timeout * 1000 : empty),
so an absent or zero timeout sends no per-request timeout at all. -/
def sessionRequestOpts (timeout : Option ℚ) : Option ℚ :=
  match timeout with
  | none => none
  | some t => if t = 0 then none else some (t * 1000)

/-- Process.executeSessionCommand(sessionId, req, timeout?): a passthrough
that issues one transport call with the computed request options and returns
response.data unchanged.  The transport argument stands for the
toolboxApi call through the axios instance: Except.error is a thrown
DaytonaError from the response interceptor (HTTP failure or HTTP timeout),
Except.ok is the parsed response body whatever its exitCode. -/
def Process.executeSessionCommand
    (transport : Option ℚ → Except DaytonaError SessionExecuteResponse)
    (timeout : Option ℚ) : Except DaytonaError SessionExecuteResponse :=
  transport (sessionRequestOpts timeout)

/-- The effective timeout of Daytona.create: params.timeout || timeout in the
source, where the JavaScript or-operator falls through on the falsy values
undefined and 0. -/
def effectiveTimeout (paramsTimeout : Option ℚ) (timeout : ℚ) : ℚ :=
  match paramsTimeout with
  | none => timeout
  | some t => if t = 0 then timeout else t

/-- The rewrap performed in the catch block of Daytona.create: an error whose
message includes "Operation timed out" is replaced by the create-level
timeout error naming the effective budget; every other error is rethrown
unchanged. -/
def createWrap (effTimeout : ℚ) (e : DaytonaError) : DaytonaError :=
  if strContains e.message "Operation timed out" then
    DaytonaError.createTimedOut effTimeout
  else e

/-- Final outcome of Daytona.create.  stillPolling is the artifact of the
fuel guard: the started-wait was still in its loop. -/
inductive CreateOutcome where
  | ok
  | failed (e : DaytonaError)
  | stillPolling (reads : Nat)
  deriving DecidableEq, Repr

/-- Result of Daytona.create together with a record of the fire-and-forget
cleanup: cleanup is none when no deleteWorkspace was attempted, and
some of the outcome of the attempted deletion otherwise.  The source
discards that outcome (void promise with a swallowing catch), which the
model reflects by never letting it influence the outcome field. -/
structure CreateResult where
  outcome : CreateOutcome
  cleanup : Option (Except DaytonaError Unit)
  deriving Repr

/-- The autoStopInterval validation of Daytona.create: the field is present
and negative (with integers, Number.isInteger always holds). -/
def autoStopInvalid : Option Int → Bool
  | some a => decide (a < 0)
  | none => false

/-- The DaytonaError thrown by waitUntilStarted for each failing outcome;
none for success or for the fuel-guard artifact. -/
def startWaitError : WaitResult → Option DaytonaError
  | WaitResult.ok _ => none
  | WaitResult.fuelOut _ => none
  | WaitResult.stateError _ r => some (DaytonaError.startFailed r)
  | WaitResult.timedOut _ => some DaytonaError.startTimedOut
  | WaitResult.invalidArg => some DaytonaError.invalidTimeout

/-- Daytona.create(params, timeout = 60): validate the effective timeout and
autoStopInterval before any remote call, then issue createWorkspace (whose
outcome is createWs, taking createDur ms); unless params.async is set, wait
for the started state with the remaining budget effectiveTimeout minus the
elapsed seconds.  Any error thrown after createWorkspace was issued triggers
a best-effort deleteWorkspace whose result is discarded, and the original
error is rethrown through createWrap. -/
def Daytona.create (createWs : Except DaytonaError Unit) (env : PollEnv)
    (deleteWs : Except DaytonaError Unit) (paramsTimeout : Option ℚ)
    (autoStopInterval : Option Int) (asyncFlag : Bool) (createDur : ℚ)
    (fuel : Nat) (timeout : ℚ := 60) : CreateResult :=
  let effTimeout := effectiveTimeout paramsTimeout timeout
  if effTimeout < 0 then ⟨.failed DaytonaError.invalidTimeout, none⟩
  else if autoStopInvalid autoStopInterval then
    ⟨.failed DaytonaError.invalidAutoStopInterval, none⟩
  else
    match createWs with
    | Except.error e => ⟨.failed (createWrap effTimeout e), some deleteWs⟩
    | Except.ok _ =>
      if asyncFlag then ⟨.ok, none⟩
      else
        match Workspace.waitUntilStarted env fuel (effTimeout - createDur / 1000) with
        | WaitResult.ok _ => ⟨.ok, none⟩
        | WaitResult.fuelOut n => ⟨.stillPolling n, none⟩
        | WaitResult.stateError _ r =>
            ⟨.failed (createWrap effTimeout (DaytonaError.startFailed r)),
              some deleteWs⟩
        | WaitResult.timedOut _ =>
            ⟨.failed (createWrap effTimeout DaytonaError.startTimedOut),
              some deleteWs⟩
        | WaitResult.invalidArg =>
            ⟨.failed (createWrap effTimeout DaytonaError.invalidTimeout),
              some deleteWs⟩

/-- Remote behaviour given by a finite script of states: the i-th read
returns the i-th entry, and creating past the end; no errorReason, instant
reads. -/
def envSeq (l : List WorkspaceState) : PollEnv :=
  ⟨fun i => l.getD i WorkspaceState.creating, fun _ => none, fun _ => 0⟩

/-- Remote that reports creating forever. -/
def envCreating : PollEnv :=
  ⟨fun _ => WorkspaceState.creating, fun _ => none, fun _ => 0⟩

/-- Remote whose second head check happens right at the 60 s default budget:
the single read takes 59900 ms, so elapsed is exactly 60000 ms after one
read plus one 100 ms sleep; every read returns creating. -/
def envSlowRead : PollEnv :=
  ⟨fun _ => WorkspaceState.creating, fun _ => none, fun _ => 59900⟩

/-- Remote script for the error-path witness: first read creating, second
read error with a server-supplied reason. -/
def envErrAt1 : PollEnv :=
  ⟨fun i => if i = 0 then WorkspaceState.creating else WorkspaceState.error,
    fun i => if i = 0 then none else some "out of disk", fun _ => 0⟩

/-!  General lemmas about the polling loop.  -/

theorem elapsedAt_congr (env env' : PollEnv) (m : Nat)
    (h : ∀ i < m, env'.readDur i = env.readDur i) :
    ∀ i, i ≤ m → elapsedAt env' i = elapsedAt env i := by
  intro i
  induction i with
  | zero => intro _; rfl
  | succ k ih =>
    intro hi
    have hk : k < m := Nat.lt_of_lt_of_le (Nat.lt_succ_self k) hi
    rw [elapsedAt, elapsedAt, ih (Nat.le_of_lt hk), h k hk]

/-- If the loop head is reached with i reads done and the first time the
target state comes back is the read at index m, the loop returns success
after exactly m + 1 reads, provided the budget never runs out before then
and the fuel guard does not fire. -/
theorem waitLoop_reaches_target (env : PollEnv) (target : WorkspaceState)
    (T : ℚ) (m : Nat)
    (hpre : ∀ i < m, env.states i ≠ target ∧ env.states i ≠ WorkspaceState.error)
    (hhit : env.states m = target)
    (htime : ∀ i, i ≤ m → T = 0 ∨ elapsedAt env i < T) :
    ∀ fuel i, i ≤ m → m - i < fuel →
      waitLoop env target T (elapsedAt env i) i fuel = WaitResult.ok (m + 1) := by
  intro fuel
  induction fuel with
  | zero => intro i _ hf; omega
  | succ f ih =>
    intro i hi hf
    rw [waitLoop, if_pos (htime i hi)]
    by_cases him : i = m
    · subst him
      rw [if_pos hhit]
    · have hlt : i < m := Nat.lt_of_le_of_ne hi him
      obtain ⟨h1, h2⟩ := hpre i hlt
      rw [if_neg h1, if_neg h2]
      have hstep : elapsedAt env i + env.readDur i + checkInterval
          = elapsedAt env (i + 1) := rfl
      rw [hstep]
      exact ih (i + 1) hlt (by omega)

/-- If the first terminal observation is the state "error" at read index m,
the loop fails with stateError carrying that read's errorReason, after
exactly m + 1 reads. -/
theorem waitLoop_reaches_error (env : PollEnv) (target : WorkspaceState)
    (T : ℚ) (m : Nat)
    (hpre : ∀ i < m, env.states i ≠ target ∧ env.states i ≠ WorkspaceState.error)
    (hhit : env.states m = WorkspaceState.error)
    (hne : target ≠ WorkspaceState.error)
    (htime : ∀ i, i ≤ m → T = 0 ∨ elapsedAt env i < T) :
    ∀ fuel i, i ≤ m → m - i < fuel →
      waitLoop env target T (elapsedAt env i) i fuel
        = WaitResult.stateError (m + 1) (env.errorReason m) := by
  intro fuel
  induction fuel with
  | zero => intro i _ hf; omega
  | succ f ih =>
    intro i hi hf
    rw [waitLoop, if_pos (htime i hi)]
    by_cases him : i = m
    · subst him
      have : env.states i ≠ target := by rw [hhit]; exact fun h => hne h.symm
      rw [if_neg this, if_pos hhit]
    · have hlt : i < m := Nat.lt_of_le_of_ne hi him
      obtain ⟨h1, h2⟩ := hpre i hlt
      rw [if_neg h1, if_neg h2]
      have hstep : elapsedAt env i + env.readDur i + checkInterval
          = elapsedAt env (i + 1) := rfl
      rw [hstep]
      exact ih (i + 1) hlt (by omega)

/-- If no terminal state is observed during the first m reads and the head
check fails for the first time at iteration m, the loop exits with the
Timeout failure after exactly m reads. -/
theorem waitLoop_times_out (env : PollEnv) (target : WorkspaceState)
    (T : ℚ) (m : Nat)
    (hpre : ∀ i < m, env.states i ≠ target ∧ env.states i ≠ WorkspaceState.error)
    (htime : ∀ i < m, T = 0 ∨ elapsedAt env i < T)
    (hstop : ¬(T = 0 ∨ elapsedAt env m < T)) :
    ∀ fuel i, i ≤ m → m - i < fuel →
      waitLoop env target T (elapsedAt env i) i fuel = WaitResult.timedOut m := by
  intro fuel
  induction fuel with
  | zero => intro i _ hf; omega
  | succ f ih =>
    intro i hi hf
    by_cases him : i = m
    · subst him
      rw [waitLoop, if_neg hstop]
    · have hlt : i < m := Nat.lt_of_le_of_ne hi him
      obtain ⟨h1, h2⟩ := hpre i hlt
      rw [waitLoop, if_pos (htime i hlt), if_neg h1, if_neg h2]
      have hstep : elapsedAt env i + env.readDur i + checkInterval
          = elapsedAt env (i + 1) := rfl
      rw [hstep]
      exact ih (i + 1) hlt (by omega)

/-- With a zero budget the head check always passes, so if no terminal state
shows up the loop consumes all its fuel, one read per unit. -/
theorem waitLoop_zero_budget_fuelOut (env : PollEnv) (target : WorkspaceState) :
    ∀ fuel i elapsed,
      (∀ j, i ≤ j → j < i + fuel →
        env.states j ≠ target ∧ env.states j ≠ WorkspaceState.error) →
      waitLoop env target 0 elapsed i fuel = WaitResult.fuelOut (i + fuel) := by
  intro fuel
  induction fuel with
  | zero => intro i elapsed _; rfl
  | succ f ih =>
    intro i elapsed h
    obtain ⟨h1, h2⟩ := h i (Nat.le_refl i) (by omega)
    rw [waitLoop, if_pos (Or.inl rfl), if_neg h1, if_neg h2]
    have := ih (i + 1) (elapsed + env.readDur i + checkInterval)
      (fun j hj1 hj2 => h j (by omega) (by omega))
    rw [this]
    congr 1
    omega

/-- With a zero budget the loop can never exit through the Timeout branch. -/
theorem waitLoop_zero_budget_no_timeout (env : PollEnv) (target : WorkspaceState) :
    ∀ fuel i elapsed r,
      waitLoop env target 0 elapsed i fuel ≠ WaitResult.timedOut r := by
  intro fuel
  induction fuel with
  | zero => intro i elapsed r h; exact absurd h (by simp [waitLoop])
  | succ f ih =>
    intro i elapsed r h
    rw [waitLoop, if_pos (Or.inl rfl)] at h
    by_cases h1 : env.states i = target
    · rw [if_pos h1] at h; exact WaitResult.noConfusion h
    · rw [if_neg h1] at h
      by_cases h2 : env.states i = WorkspaceState.error
      · rw [if_pos h2] at h; exact WaitResult.noConfusion h
      · rw [if_neg h2] at h
        exact ih (i + 1) (elapsed + env.readDur i + checkInterval) r h

/-- The read count recorded in the loop result never drops below the count
the loop started from. -/
theorem waitLoop_reads_ge (env : PollEnv) (target : WorkspaceState) (T : ℚ) :
    ∀ fuel i elapsed, i ≤ (waitLoop env target T elapsed i fuel).reads := by
  intro fuel
  induction fuel with
  | zero => intro i elapsed; exact Nat.le_refl i
  | succ f ih =>
    intro i elapsed
    rw [waitLoop]
    by_cases hc : T = 0 ∨ elapsed < T
    · rw [if_pos hc]
      by_cases h1 : env.states i = target
      · rw [if_pos h1]; exact Nat.le_succ i
      · rw [if_neg h1]
        by_cases h2 : env.states i = WorkspaceState.error
        · rw [if_pos h2]; exact Nat.le_succ i
        · rw [if_neg h2]
          exact Nat.le_trans (Nat.le_succ i)
            (ih (i + 1) (elapsed + env.readDur i + checkInterval))
    · rw [if_neg hc]; exact Nat.le_refl i

/-- A run started with fuel at least one and a zero budget issues at least
one status read. -/
theorem waitLoop_zero_budget_reads_pos (env : PollEnv) (target : WorkspaceState)
    (elapsed : ℚ) (f : Nat) :
    1 ≤ (waitLoop env target 0 elapsed 0 (f + 1)).reads := by
  rw [waitLoop, if_pos (Or.inl rfl)]
  by_cases h1 : env.states 0 = target
  · rw [if_pos h1]; exact Nat.le_refl 1
  · rw [if_neg h1]
    by_cases h2 : env.states 0 = WorkspaceState.error
    · rw [if_pos h2]; exact Nat.le_refl 1
    · rw [if_neg h2]
      exact waitLoop_reads_ge env target 0 f 1 _

/-- A Timeout exit means the budget was nonzero and the wall clock had
reached it at the recorded read count. -/
theorem waitLoop_timedOut_inv (env : PollEnv) (target : WorkspaceState) (T : ℚ) :
    ∀ fuel i m, waitLoop env target T (elapsedAt env i) i fuel = WaitResult.timedOut m →
      T ≠ 0 ∧ ¬ elapsedAt env m < T := by
  intro fuel
  induction fuel with
  | zero => intro i m h; exact absurd h (by simp [waitLoop])
  | succ f ih =>
    intro i m h
    rw [waitLoop] at h
    by_cases hc : T = 0 ∨ elapsedAt env i < T
    · rw [if_pos hc] at h
      by_cases h1 : env.states i = target
      · rw [if_pos h1] at h; exact absurd h (by simp)
      · rw [if_neg h1] at h
        by_cases h2 : env.states i = WorkspaceState.error
        · rw [if_pos h2] at h; exact absurd h (by simp)
        · rw [if_neg h2] at h
          have hstep : elapsedAt env i + env.readDur i + checkInterval
              = elapsedAt env (i + 1) := rfl
          rw [hstep] at h
          exact ih (i + 1) m h
    · rw [if_neg hc] at h
      have him : i = m := by
        have := h
        simpa using this
      subst him
      exact ⟨fun h0 => hc (Or.inl h0), fun hl => hc (Or.inr hl)⟩

/-!  Corollaries at the level of the two waiter entry points.  -/

theorem budget_cases (t : ℚ) (m : Nat) (env : PollEnv)
    (h : ∀ i, i ≤ m → t = 0 ∨ elapsedAt env i < t * 1000) :
    ∀ i, i ≤ m → t * 1000 = 0 ∨ elapsedAt env i < t * 1000 := by
  intro i hi
  rcases h i hi with h0 | hl
  · exact Or.inl (by rw [h0, zero_mul])
  · exact Or.inr hl

theorem waitUntilStarted_ok (env : PollEnv) (t : ℚ) (m fuel : Nat)
    (ht : 0 ≤ t)
    (hpre : ∀ i < m, env.states i ≠ WorkspaceState.started ∧
      env.states i ≠ WorkspaceState.error)
    (hhit : env.states m = WorkspaceState.started)
    (htime : ∀ i, i ≤ m → t = 0 ∨ elapsedAt env i < t * 1000)
    (hfuel : m < fuel) :
    Workspace.waitUntilStarted env fuel t = WaitResult.ok (m + 1) := by
  rw [Workspace.waitUntilStarted, if_neg (not_lt.mpr ht)]
  exact waitLoop_reaches_target env _ _ m hpre hhit (budget_cases t m env htime)
    fuel 0 (Nat.zero_le m) (by omega)

theorem waitUntilStopped_ok (env : PollEnv) (t : ℚ) (m fuel : Nat)
    (ht : 0 ≤ t)
    (hpre : ∀ i < m, env.states i ≠ WorkspaceState.stopped ∧
      env.states i ≠ WorkspaceState.error)
    (hhit : env.states m = WorkspaceState.stopped)
    (htime : ∀ i, i ≤ m → t = 0 ∨ elapsedAt env i < t * 1000)
    (hfuel : m < fuel) :
    Workspace.waitUntilStopped env fuel t = WaitResult.ok (m + 1) := by
  rw [Workspace.waitUntilStopped, if_neg (not_lt.mpr ht)]
  exact waitLoop_reaches_target env _ _ m hpre hhit (budget_cases t m env htime)
    fuel 0 (Nat.zero_le m) (by omega)

theorem waitUntilStarted_error (env : PollEnv) (t : ℚ) (m fuel : Nat)
    (ht : 0 ≤ t)
    (hpre : ∀ i < m, env.states i ≠ WorkspaceState.started ∧
      env.states i ≠ WorkspaceState.error)
    (hhit : env.states m = WorkspaceState.error)
    (htime : ∀ i, i ≤ m → t = 0 ∨ elapsedAt env i < t * 1000)
    (hfuel : m < fuel) :
    Workspace.waitUntilStarted env fuel t
      = WaitResult.stateError (m + 1) (env.errorReason m) := by
  rw [Workspace.waitUntilStarted, if_neg (not_lt.mpr ht)]
  exact waitLoop_reaches_error env _ _ m hpre hhit (by intro h; cases h)
    (budget_cases t m env htime) fuel 0 (Nat.zero_le m) (by omega)

theorem waitUntilStarted_timeout (env : PollEnv) (t : ℚ) (m fuel : Nat)
    (ht : 0 ≤ t) (htz : t ≠ 0)
    (hpre : ∀ i < m, env.states i ≠ WorkspaceState.started ∧
      env.states i ≠ WorkspaceState.error)
    (htime : ∀ i < m, elapsedAt env i < t * 1000)
    (hstop : ¬ elapsedAt env m < t * 1000)
    (hfuel : m < fuel) :
    Workspace.waitUntilStarted env fuel t = WaitResult.timedOut m := by
  rw [Workspace.waitUntilStarted, if_neg (not_lt.mpr ht)]
  have hT : t * 1000 ≠ 0 := by
    intro h
    exact htz (by
      rcases mul_eq_zero.mp h with h1 | h1
      · exact h1
      · norm_num at h1)
  exact waitLoop_times_out env _ _ m hpre (fun i hi => Or.inr (htime i hi))
    (by rintro (h | h); exacts [hT h, hstop h]) fuel 0 (Nat.zero_le m) (by omega)

theorem waitUntilStopped_timeout (env : PollEnv) (t : ℚ) (m fuel : Nat)
    (ht : 0 ≤ t) (htz : t ≠ 0)
    (hpre : ∀ i < m, env.states i ≠ WorkspaceState.stopped ∧
      env.states i ≠ WorkspaceState.error)
    (htime : ∀ i < m, elapsedAt env i < t * 1000)
    (hstop : ¬ elapsedAt env m < t * 1000)
    (hfuel : m < fuel) :
    Workspace.waitUntilStopped env fuel t = WaitResult.timedOut m := by
  rw [Workspace.waitUntilStopped, if_neg (not_lt.mpr ht)]
  have hT : t * 1000 ≠ 0 := by
    intro h
    exact htz (by
      rcases mul_eq_zero.mp h with h1 | h1
      · exact h1
      · norm_num at h1)
  exact waitLoop_times_out env _ _ m hpre (fun i hi => Or.inr (htime i hi))
    (by rintro (h | h); exacts [hT h, hstop h]) fuel 0 (Nat.zero_le m) (by omega)

theorem waitUntilStarted_zero_fuelOut (env : PollEnv) (n : Nat)
    (hpre : ∀ i < n, env.states i ≠ WorkspaceState.started ∧
      env.states i ≠ WorkspaceState.error) :
    Workspace.waitUntilStarted env n 0 = WaitResult.fuelOut n := by
  rw [Workspace.waitUntilStarted, if_neg (lt_irrefl (0 : ℚ)), zero_mul]
  have := waitLoop_zero_budget_fuelOut env WorkspaceState.started n 0 0
    (fun j _ hj => hpre j (by omega))
  simpa using this

theorem waitUntilStopped_zero_fuelOut (env : PollEnv) (n : Nat)
    (hpre : ∀ i < n, env.states i ≠ WorkspaceState.stopped ∧
      env.states i ≠ WorkspaceState.error) :
    Workspace.waitUntilStopped env n 0 = WaitResult.fuelOut n := by
  rw [Workspace.waitUntilStopped, if_neg (lt_irrefl (0 : ℚ)), zero_mul]
  have := waitLoop_zero_budget_fuelOut env WorkspaceState.stopped n 0 0
    (fun j _ hj => hpre j (by omega))
  simpa using this

theorem waitUntilStarted_zero_no_timeout (env : PollEnv) (fuel r : Nat) :
    Workspace.waitUntilStarted env fuel 0 ≠ WaitResult.timedOut r := by
  rw [Workspace.waitUntilStarted, if_neg (lt_irrefl (0 : ℚ)), zero_mul]
  exact waitLoop_zero_budget_no_timeout env WorkspaceState.started fuel 0 0 r

theorem waitUntilStopped_zero_no_timeout (env : PollEnv) (fuel r : Nat) :
    Workspace.waitUntilStopped env fuel 0 ≠ WaitResult.timedOut r := by
  rw [Workspace.waitUntilStopped, if_neg (lt_irrefl (0 : ℚ)), zero_mul]
  exact waitLoop_zero_budget_no_timeout env WorkspaceState.stopped fuel 0 0 r

/-!  Claim theorems.  -/

/-- C1: when the target state is first returned by the status read at index
m (that is, by the (m+1)-th read) and the budget has not expired before any
of those reads, waitUntilStarted (target started) and waitUntilStopped
(target stopped, second scenario envB, index n) return success after exactly
m+1 (resp. n+1) status reads; and the outcome is unchanged under any
modification of the remote behaviour past that read, so no further polling
call is issued after the target state is observed. -/
theorem waiter_stops_at_first_target_read
    (envA envB : PollEnv) (t u : ℚ) (fuel m n : Nat)
    (htA : 0 ≤ t)
    (hpreA : ∀ i < m, envA.states i ≠ WorkspaceState.started ∧
      envA.states i ≠ WorkspaceState.error)
    (hhitA : envA.states m = WorkspaceState.started)
    (htimeA : ∀ i, i ≤ m → t = 0 ∨ elapsedAt envA i < t * 1000)
    (hfuelA : m < fuel)
    (htB : 0 ≤ u)
    (hpreB : ∀ i < n, envB.states i ≠ WorkspaceState.stopped ∧
      envB.states i ≠ WorkspaceState.error)
    (hhitB : envB.states n = WorkspaceState.stopped)
    (htimeB : ∀ i, i ≤ n → u = 0 ∨ elapsedAt envB i < u * 1000)
    (hfuelB : n < fuel) :
    (Workspace.waitUntilStarted envA fuel t = WaitResult.ok (m + 1) ∧
      ∀ env', (∀ i, i ≤ m → env'.states i = envA.states i) →
        (∀ i < m, env'.readDur i = envA.readDur i) →
        Workspace.waitUntilStarted env' fuel t = WaitResult.ok (m + 1)) ∧
    (Workspace.waitUntilStopped envB fuel u = WaitResult.ok (n + 1) ∧
      ∀ env', (∀ i, i ≤ n → env'.states i = envB.states i) →
        (∀ i < n, env'.readDur i = envB.readDur i) →
        Workspace.waitUntilStopped env' fuel u = WaitResult.ok (n + 1)) := by
  refine ⟨⟨waitUntilStarted_ok envA t m fuel htA hpreA hhitA htimeA hfuelA, ?_⟩,
    ⟨waitUntilStopped_ok envB u n fuel htB hpreB hhitB htimeB hfuelB, ?_⟩⟩
  · intro env' hs hd
    refine waitUntilStarted_ok env' t m fuel htA ?_ ?_ ?_ hfuelA
    · intro i hi
      rw [hs i (Nat.le_of_lt hi)]
      exact hpreA i hi
    · rw [hs m (Nat.le_refl m)]
      exact hhitA
    · intro i hi
      rcases htimeA i hi with h | h
      · exact Or.inl h
      · exact Or.inr (by rw [elapsedAt_congr envA env' m hd i hi]; exact h)
  · intro env' hs hd
    refine waitUntilStopped_ok env' u n fuel htB ?_ ?_ ?_ hfuelB
    · intro i hi
      rw [hs i (Nat.le_of_lt hi)]
      exact hpreB i hi
    · rw [hs n (Nat.le_refl n)]
      exact hhitB
    · intro i hi
      rcases htimeB i hi with h | h
      · exact Or.inl h
      · exact Or.inr (by rw [elapsedAt_congr envB env' n hd i hi]; exact h)

/-- C1 witness: remote script creating, creating, started with budget 5 s
returns success after exactly 3 reads; script stopping, stopped returns
success after exactly 2 reads. -/
theorem waiter_stops_at_first_target_read_witness :
    Workspace.waitUntilStarted
      (envSeq [WorkspaceState.creating, WorkspaceState.creating,
        WorkspaceState.started]) 10 5 = WaitResult.ok 3 ∧
    Workspace.waitUntilStopped
      (envSeq [WorkspaceState.stopping, WorkspaceState.stopped]) 10 5
      = WaitResult.ok 2 := by
  have h := waiter_stops_at_first_target_read
    (envSeq [WorkspaceState.creating, WorkspaceState.creating,
      WorkspaceState.started])
    (envSeq [WorkspaceState.stopping, WorkspaceState.stopped]) 5 5 10 2 1
    (by norm_num) (by decide) (by decide)
    (by
      intro i hi
      right
      interval_cases i <;> norm_num [elapsedAt, envSeq, checkInterval])
    (by omega)
    (by norm_num) (by decide) (by decide)
    (by
      intro i hi
      right
      interval_cases i <;> norm_num [elapsedAt, envSeq, checkInterval])
    (by omega)
  exact ⟨h.1.1, h.2.1⟩

/-- C2: if the status read at index k is the first to return state error,
waitUntilStarted fails right then, after exactly k+1 reads, with the
state-error outcome carrying that read's server-supplied errorReason; that
outcome is not a Timeout outcome, and it is unchanged under any modification
of the remote behaviour past that read, so the waiter does not keep polling
until the timeout. -/
theorem waiter_error_state_fails_fast
    (env : PollEnv) (t : ℚ) (fuel k : Nat)
    (ht : 0 ≤ t)
    (hpre : ∀ i < k, env.states i ≠ WorkspaceState.started ∧
      env.states i ≠ WorkspaceState.error)
    (hhit : env.states k = WorkspaceState.error)
    (htime : ∀ i, i ≤ k → t = 0 ∨ elapsedAt env i < t * 1000)
    (hfuel : k < fuel) :
    Workspace.waitUntilStarted env fuel t
      = WaitResult.stateError (k + 1) (env.errorReason k) ∧
    (∀ r, Workspace.waitUntilStarted env fuel t ≠ WaitResult.timedOut r) ∧
    ∀ env', (∀ i, i ≤ k → env'.states i = env.states i) →
      (∀ i, i ≤ k → env'.errorReason i = env.errorReason i) →
      (∀ i < k, env'.readDur i = env.readDur i) →
      Workspace.waitUntilStarted env' fuel t
        = WaitResult.stateError (k + 1) (env.errorReason k) := by
  have h1 := waitUntilStarted_error env t k fuel ht hpre hhit htime hfuel
  refine ⟨h1, ?_, ?_⟩
  · intro r h
    rw [h1] at h
    exact WaitResult.noConfusion h
  · intro env' hs he hd
    have h2 : Workspace.waitUntilStarted env' fuel t
        = WaitResult.stateError (k + 1) (env'.errorReason k) := by
      refine waitUntilStarted_error env' t k fuel ht ?_ ?_ ?_ hfuel
      · intro i hi
        rw [hs i (Nat.le_of_lt hi)]
        exact hpre i hi
      · rw [hs k (Nat.le_refl k)]
        exact hhit
      · intro i hi
        rcases htime i hi with h | h
        · exact Or.inl h
        · exact Or.inr (by rw [elapsedAt_congr env env' k hd i hi]; exact h)
    rw [h2, he k (Nat.le_refl k)]

/-- C2 witness: remote script creating then error with reason "out of disk":
with budget 60 s the waiter fails after exactly 2 reads with the state-error
outcome carrying the reason, and the outcome is not a Timeout. -/
theorem waiter_error_state_fails_fast_witness :
    Workspace.waitUntilStarted envErrAt1 10 60
      = WaitResult.stateError 2 (some "out of disk") ∧
    ∀ r, Workspace.waitUntilStarted envErrAt1 10 60 ≠ WaitResult.timedOut r := by
  have h := waiter_error_state_fails_fast envErrAt1 60 10 1
    (by norm_num) (by decide) (by decide)
    (by
      intro i hi
      right
      interval_cases i <;> norm_num [elapsedAt, envErrAt1, checkInterval])
    (by omega)
  exact ⟨h.1, h.2.1⟩

/-- C3: for a positive timeout t, start and stop consist of exactly the
mutating request (one call) followed by the corresponding waiter invoked
with the remaining budget t minus the mutating call's elapsed seconds; as a
consequence, when the composed operation exits through the Timeout branch
after m polls, the total wall clock spent (mutating call plus polling) has
reached the full caller budget t, so the overall budget is t and not t plus
polling time. -/
theorem start_stop_spend_remaining_budget
    (env : PollEnv) (mutDur t : ℚ) (fuel : Nat) (ht : 0 < t) :
    Workspace.start env mutDur fuel t
      = ⟨1, Workspace.waitUntilStarted env fuel (t - mutDur / 1000)⟩ ∧
    Workspace.stop env mutDur fuel t
      = ⟨1, Workspace.waitUntilStopped env fuel (t - mutDur / 1000)⟩ ∧
    (∀ m, (Workspace.start env mutDur fuel t).wait = WaitResult.timedOut m →
      t * 1000 ≤ mutDur + elapsedAt env m) ∧
    (∀ m, (Workspace.stop env mutDur fuel t).wait = WaitResult.timedOut m →
      t * 1000 ≤ mutDur + elapsedAt env m) := by
  have hnot : ¬ t < 0 := not_lt.mpr (le_of_lt ht)
  have hnz : ¬ t = 0 := ne_of_gt ht
  have hstart : Workspace.start env mutDur fuel t
      = ⟨1, Workspace.waitUntilStarted env fuel (t - mutDur / 1000)⟩ := by
    rw [Workspace.start, if_neg hnot, if_neg hnz]
  have hstop : Workspace.stop env mutDur fuel t
      = ⟨1, Workspace.waitUntilStopped env fuel (t - mutDur / 1000)⟩ := by
    rw [Workspace.stop, if_neg hnot, if_neg hnz]
  have hexp : (t - mutDur / 1000) * 1000 = t * 1000 - mutDur := by
    rw [sub_mul, div_mul_cancel₀ _ (by norm_num : (1000 : ℚ) ≠ 0)]
  refine ⟨hstart, hstop, ?_, ?_⟩
  · intro m h
    rw [hstart] at h
    simp only at h
    rw [Workspace.waitUntilStarted] at h
    by_cases hneg : t - mutDur / 1000 < 0
    · rw [if_pos hneg] at h
      exact absurd h (by simp)
    · rw [if_neg hneg] at h
      have := (waitLoop_timedOut_inv env WorkspaceState.started
        ((t - mutDur / 1000) * 1000) fuel 0 m h).2
      have hge := not_lt.mp this
      rw [hexp] at hge
      linarith
  · intro m h
    rw [hstop] at h
    simp only at h
    rw [Workspace.waitUntilStopped] at h
    by_cases hneg : t - mutDur / 1000 < 0
    · rw [if_pos hneg] at h
      exact absurd h (by simp)
    · rw [if_neg hneg] at h
      have := (waitLoop_timedOut_inv env WorkspaceState.stopped
        ((t - mutDur / 1000) * 1000) fuel 0 m h).2
      have hge := not_lt.mp this
      rw [hexp] at hge
      linarith

/-- C3 witness: with t 5 s and an instantaneous mutating call, start is the
mutating request followed by the waiter with the remaining budget. -/
theorem start_stop_spend_remaining_budget_witness :
    Workspace.start envCreating 0 3 5
      = ⟨1, Workspace.waitUntilStarted envCreating 3 (5 - 0 / 1000)⟩ ∧
    Workspace.stop envCreating 0 3 5
      = ⟨1, Workspace.waitUntilStopped envCreating 3 (5 - 0 / 1000)⟩ := by
  have h := start_stop_spend_remaining_budget envCreating 0 5 3 (by norm_num)
  exact ⟨h.1, h.2.1⟩

/-- C4 counterexample: with timeout 5 s and a mutating call of 6000 ms the
remaining budget is negative, and start fails with the invalid-argument
outcome (the error whose message is "Timeout must be a non-negative
number"), not with the Timeout outcome the claim states. -/
theorem start_negative_remainder_counterexample :
    (Workspace.start envCreating 6000 10 5).wait = WaitResult.invalidArg ∧
    ((Workspace.start envCreating 6000 10 5).wait).isTimedOut = false := by
  have h5 : ¬ (5 : ℚ) < 0 := by norm_num
  have hne : ¬ (5 : ℚ) = 0 := by norm_num
  have hneg : (5 : ℚ) - 6000 / 1000 < 0 := by norm_num
  simp only [Workspace.start, Workspace.waitUntilStarted, if_neg h5, if_neg hne,
    if_pos hneg]
  simp [WaitResult.isTimedOut]

/-- C4 (amended): in start(t)/stop(t) with positive t, when the mutating
call consumes exactly the budget, the zero remaining budget makes the waiter
still poll at least once; and when the mutating call overruns the budget,
the negative remaining budget makes the operation fail fast with the
invalid-argument error (message "Timeout must be a non-negative number"),
not the Timeout error, with zero status reads and an outcome independent of
the remote. -/
theorem start_stop_exhausted_budget
    (env : PollEnv) (mutDur t : ℚ) (fuel : Nat) (ht : 0 < t) :
    (mutDur / 1000 = t → 1 ≤ fuel →
      1 ≤ ((Workspace.start env mutDur fuel t).wait).reads ∧
      1 ≤ ((Workspace.stop env mutDur fuel t).wait).reads) ∧
    (t < mutDur / 1000 →
      (Workspace.start env mutDur fuel t).wait = WaitResult.invalidArg ∧
      (Workspace.stop env mutDur fuel t).wait = WaitResult.invalidArg ∧
      ((Workspace.start env mutDur fuel t).wait).reads = 0 ∧
      ∀ env', (Workspace.start env' mutDur fuel t).wait = WaitResult.invalidArg ∧
        (Workspace.stop env' mutDur fuel t).wait = WaitResult.invalidArg) := by
  have hnot : ¬ t < 0 := not_lt.mpr (le_of_lt ht)
  have hnz : ¬ t = 0 := ne_of_gt ht
  constructor
  · intro hme hf
    have harg : t - mutDur / 1000 = 0 := by rw [hme]; ring
    obtain ⟨f, rfl⟩ : ∃ f, fuel = f + 1 :=
      ⟨fuel - 1, by omega⟩
    constructor
    · have hw : (Workspace.start env mutDur (f + 1) t).wait
          = Workspace.waitUntilStarted env (f + 1) 0 := by
        rw [Workspace.start, if_neg hnot, if_neg hnz, harg]
      rw [hw, Workspace.waitUntilStarted, if_neg (lt_irrefl (0 : ℚ)), zero_mul]
      exact waitLoop_zero_budget_reads_pos env WorkspaceState.started 0 f
    · have hw : (Workspace.stop env mutDur (f + 1) t).wait
          = Workspace.waitUntilStopped env (f + 1) 0 := by
        rw [Workspace.stop, if_neg hnot, if_neg hnz, harg]
      rw [hw, Workspace.waitUntilStopped, if_neg (lt_irrefl (0 : ℚ)), zero_mul]
      exact waitLoop_zero_budget_reads_pos env WorkspaceState.stopped 0 f
  · intro hlt
    have hneg : t - mutDur / 1000 < 0 := by linarith
    have hw : ∀ env' : PollEnv,
        (Workspace.start env' mutDur fuel t).wait = WaitResult.invalidArg := by
      intro env'
      rw [Workspace.start, if_neg hnot, if_neg hnz]
      simp only
      rw [Workspace.waitUntilStarted, if_pos hneg]
    have hw' : ∀ env' : PollEnv,
        (Workspace.stop env' mutDur fuel t).wait = WaitResult.invalidArg := by
      intro env'
      rw [Workspace.stop, if_neg hnot, if_neg hnz]
      simp only
      rw [Workspace.waitUntilStopped, if_pos hneg]
    exact ⟨hw env, hw' env, by rw [hw env]; rfl, fun env' => ⟨hw env', hw' env'⟩⟩

/-- C4 witness: with t 5 s, a mutating call of exactly 5000 ms leaves a zero
budget and the waiter still issues at least one read; a mutating call of
6000 ms leaves a negative budget and start fails with the invalid-argument
outcome. -/
theorem start_stop_exhausted_budget_witness :
    (1 ≤ ((Workspace.start envCreating 5000 10 5).wait).reads ∧
      1 ≤ ((Workspace.stop envCreating 5000 10 5).wait).reads) ∧
    (Workspace.start envCreating 6000 10 5).wait = WaitResult.invalidArg := by
  have h1 := (start_stop_exhausted_budget envCreating 5000 5 10
    (by norm_num)).1 (by norm_num) (by omega)
  have h2 := ((start_stop_exhausted_budget envCreating 6000 5 10
    (by norm_num)).2 (by norm_num)).1
  exact ⟨h1, h2⟩

/-- C5: a negative timeout is rejected up front with the invalid-argument
error by start, stop, waitUntilStarted and waitUntilStopped: no mutating
request is issued (zero mutCalls), no status read happens (zero reads), and
the outcome is independent of the remote behaviour entirely. -/
theorem negative_timeout_rejected_without_remote_calls
    (env : PollEnv) (mutDur t : ℚ) (fuel : Nat) (ht : t < 0) :
    Workspace.start env mutDur fuel t = ⟨0, WaitResult.invalidArg⟩ ∧
    Workspace.stop env mutDur fuel t = ⟨0, WaitResult.invalidArg⟩ ∧
    Workspace.waitUntilStarted env fuel t = WaitResult.invalidArg ∧
    Workspace.waitUntilStopped env fuel t = WaitResult.invalidArg ∧
    ((Workspace.start env mutDur fuel t).wait).reads = 0 ∧
    (Workspace.waitUntilStarted env fuel t).reads = 0 ∧
    ∀ env' mutDur',
      Workspace.start env' mutDur' fuel t = Workspace.start env mutDur fuel t ∧
      Workspace.stop env' mutDur' fuel t = Workspace.stop env mutDur fuel t ∧
      Workspace.waitUntilStarted env' fuel t = Workspace.waitUntilStarted env fuel t ∧
      Workspace.waitUntilStopped env' fuel t = Workspace.waitUntilStopped env fuel t := by
  refine ⟨?_, ?_, ?_, ?_, ?_, ?_, ?_⟩ <;>
    simp [Workspace.start, Workspace.stop, Workspace.waitUntilStarted,
      Workspace.waitUntilStopped, if_pos ht, WaitResult.reads]

/-- C5 witness: timeout -1 is rejected by start and by waitUntilStarted with
the invalid-argument outcome and zero remote calls. -/
theorem negative_timeout_rejected_without_remote_calls_witness :
    Workspace.start envCreating 0 3 (-1) = ⟨0, WaitResult.invalidArg⟩ ∧
    Workspace.waitUntilStarted envCreating 3 (-1) = WaitResult.invalidArg := by
  have h := negative_timeout_rejected_without_remote_calls envCreating 0 (-1) 3
    (by norm_num)
  exact ⟨h.1, h.2.2.1⟩

/-- C6: with timeout exactly 0 the waiter can never exit through the Timeout
branch, whatever the remote behaviour and however long it runs; and while
only non-terminal states come back it keeps polling: with the iteration
guard set to n it performs all n status reads and is still polling when the
guard fires. -/
theorem zero_timeout_polls_indefinitely (env : PollEnv) (n : Nat)
    (hpre : ∀ i < n, env.states i ≠ WorkspaceState.started ∧
      env.states i ≠ WorkspaceState.stopped ∧
      env.states i ≠ WorkspaceState.error) :
    (∀ fuel r, Workspace.waitUntilStarted env fuel 0 ≠ WaitResult.timedOut r) ∧
    (∀ fuel r, Workspace.waitUntilStopped env fuel 0 ≠ WaitResult.timedOut r) ∧
    Workspace.waitUntilStarted env n 0 = WaitResult.fuelOut n ∧
    Workspace.waitUntilStopped env n 0 = WaitResult.fuelOut n := by
  refine ⟨fun fuel r => waitUntilStarted_zero_no_timeout env fuel r,
    fun fuel r => waitUntilStopped_zero_no_timeout env fuel r,
    waitUntilStarted_zero_fuelOut env n ?_,
    waitUntilStopped_zero_fuelOut env n ?_⟩
  · intro i hi
    exact ⟨(hpre i hi).1, (hpre i hi).2.2⟩
  · intro i hi
    exact ⟨(hpre i hi).2.1, (hpre i hi).2.2⟩

/-- C6 witness: a remote stuck at creating with timeout 0 never produces a
Timeout outcome, and with the guard at 4 it performs all 4 reads and is
still polling. -/
theorem zero_timeout_polls_indefinitely_witness :
    (∀ fuel r, Workspace.waitUntilStarted envCreating fuel 0
      ≠ WaitResult.timedOut r) ∧
    Workspace.waitUntilStarted envCreating 4 0 = WaitResult.fuelOut 4 := by
  have h := zero_timeout_polls_indefinitely envCreating 4 (by decide)
  exact ⟨h.1, h.2.2.1⟩

/-- C9: omitting the timeout argument uses the finite 60-second default
budget: when the remote stays non-terminal and the wall clock first reaches
the 60 s budget at iteration m, the default-argument forms of
waitUntilStarted, waitUntilStopped, start and stop (instantaneous mutating
call) all fail with the Timeout outcome after m reads; an unbounded wait
requires the explicit timeout 0, with which the Timeout branch is
unreachable. -/
theorem omitted_timeout_defaults_to_sixty (env : PollEnv) (m fuel : Nat)
    (hpre : ∀ i < m, env.states i ≠ WorkspaceState.started ∧
      env.states i ≠ WorkspaceState.stopped ∧
      env.states i ≠ WorkspaceState.error)
    (htime : ∀ i < m, elapsedAt env i < 60 * 1000)
    (hstop : ¬ elapsedAt env m < 60 * 1000)
    (hfuel : m < fuel) :
    Workspace.waitUntilStarted env fuel = WaitResult.timedOut m ∧
    Workspace.waitUntilStopped env fuel = WaitResult.timedOut m ∧
    Workspace.start env 0 fuel = ⟨1, WaitResult.timedOut m⟩ ∧
    Workspace.stop env 0 fuel = ⟨1, WaitResult.timedOut m⟩ ∧
    (∀ f r, Workspace.waitUntilStarted env f 0 ≠ WaitResult.timedOut r) ∧
    (∀ f r, Workspace.waitUntilStopped env f 0 ≠ WaitResult.timedOut r) := by
  have hpreA : ∀ i < m, env.states i ≠ WorkspaceState.started ∧
      env.states i ≠ WorkspaceState.error :=
    fun i hi => ⟨(hpre i hi).1, (hpre i hi).2.2⟩
  have hpreB : ∀ i < m, env.states i ≠ WorkspaceState.stopped ∧
      env.states i ≠ WorkspaceState.error :=
    fun i hi => ⟨(hpre i hi).2.1, (hpre i hi).2.2⟩
  have hA := waitUntilStarted_timeout env 60 m fuel (by norm_num) (by norm_num)
    hpreA htime hstop hfuel
  have hB := waitUntilStopped_timeout env 60 m fuel (by norm_num) (by norm_num)
    hpreB htime hstop hfuel
  refine ⟨hA, hB, ?_, ?_,
    fun f r => waitUntilStarted_zero_no_timeout env f r,
    fun f r => waitUntilStopped_zero_no_timeout env f r⟩
  · rw [Workspace.start, if_neg (by norm_num : ¬ (60 : ℚ) < 0)]
    norm_num [MutateResult.mk.injEq]
    exact hA
  · rw [Workspace.stop, if_neg (by norm_num : ¬ (60 : ℚ) < 0)]
    norm_num [MutateResult.mk.injEq]
    exact hB

/-- C9 witness: a remote stuck at creating whose single status read takes
59900 ms reaches the 60 s default budget at the second head check: with the
timeout argument omitted, waitUntilStarted and start both fail with the
Timeout outcome after 1 read. -/
theorem omitted_timeout_defaults_to_sixty_witness :
    Workspace.waitUntilStarted envSlowRead 3 = WaitResult.timedOut 1 ∧
    Workspace.start envSlowRead 0 3 = ⟨1, WaitResult.timedOut 1⟩ := by
  have h := omitted_timeout_defaults_to_sixty envSlowRead 1 3
    (by decide)
    (by
      intro i hi
      interval_cases i
      norm_num [elapsedAt])
    (by norm_num [elapsedAt, envSlowRead, checkInterval])
    (by omega)
  exact ⟨h.1, h.2.2.1⟩

/-- C7: when Daytona.create fails after the createWorkspace request was
issued — either the request itself failed, or the wait for the started state
failed (state error, timeout, or the negative-remaining-budget error) — the
operation attempts the best-effort cleanup deletion (the cleanup record is
exactly the deletion's outcome, which the source discards), and the error
reported is the rewrap of the original failure alone: it is the same
whatever the cleanup deletion returns, so a cleanup failure never masks or
replaces the original error. -/
theorem create_cleanup_never_masks_original_error
    (env : PollEnv) (deleteWs : Except DaytonaError Unit)
    (paramsTimeout : Option ℚ) (autoStop : Option Int) (createDur : ℚ)
    (fuel : Nat) (timeout : ℚ) (e : DaytonaError)
    (hT : ¬ effectiveTimeout paramsTimeout timeout < 0)
    (hA : autoStopInvalid autoStop = false)
    (hw : startWaitError (Workspace.waitUntilStarted env fuel
      (effectiveTimeout paramsTimeout timeout - createDur / 1000)) = some e) :
    ((Daytona.create (Except.ok ()) env deleteWs paramsTimeout autoStop false
        createDur fuel timeout).cleanup = some deleteWs ∧
      (Daytona.create (Except.ok ()) env deleteWs paramsTimeout autoStop false
        createDur fuel timeout).outcome
        = CreateOutcome.failed
            (createWrap (effectiveTimeout paramsTimeout timeout) e) ∧
      ∀ deleteWs',
        (Daytona.create (Except.ok ()) env deleteWs' paramsTimeout autoStop false
          createDur fuel timeout).outcome
        = (Daytona.create (Except.ok ()) env deleteWs paramsTimeout autoStop false
          createDur fuel timeout).outcome) ∧
    ∀ e₀ deleteWs',
      (Daytona.create (Except.error e₀) env deleteWs' paramsTimeout autoStop false
        createDur fuel timeout).cleanup = some deleteWs' ∧
      (Daytona.create (Except.error e₀) env deleteWs' paramsTimeout autoStop false
        createDur fuel timeout).outcome
        = CreateOutcome.failed
            (createWrap (effectiveTimeout paramsTimeout timeout) e₀) := by
  constructor
  · cases hwait : Workspace.waitUntilStarted env fuel
        (effectiveTimeout paramsTimeout timeout - createDur / 1000) with
    | ok n =>
      rw [hwait] at hw
      exact absurd hw (by simp [startWaitError])
    | fuelOut n =>
      rw [hwait] at hw
      exact absurd hw (by simp [startWaitError])
    | stateError n r =>
      rw [hwait] at hw
      simp only [startWaitError, Option.some.injEq] at hw
      subst hw
      refine ⟨?_, ?_, ?_⟩
      · simp [Daytona.create, if_neg hT, hA, hwait]
      · simp [Daytona.create, if_neg hT, hA, hwait]
      · intro deleteWs'
        simp [Daytona.create, if_neg hT, hA, hwait]
    | timedOut n =>
      rw [hwait] at hw
      simp only [startWaitError, Option.some.injEq] at hw
      subst hw
      refine ⟨?_, ?_, ?_⟩
      · simp [Daytona.create, if_neg hT, hA, hwait]
      · simp [Daytona.create, if_neg hT, hA, hwait]
      · intro deleteWs'
        simp [Daytona.create, if_neg hT, hA, hwait]
    | invalidArg =>
      rw [hwait] at hw
      simp only [startWaitError, Option.some.injEq] at hw
      subst hw
      refine ⟨?_, ?_, ?_⟩
      · simp [Daytona.create, if_neg hT, hA, hwait]
      · simp [Daytona.create, if_neg hT, hA, hwait]
      · intro deleteWs'
        simp [Daytona.create, if_neg hT, hA, hwait]
  · intro e₀ deleteWs'
    constructor
    · simp [Daytona.create, if_neg hT, hA]
    · simp [Daytona.create, if_neg hT, hA]

/-- C7 witness: the remote reports the error state with reason "out of disk"
during the started-wait of a create with the default 60 s budget; the
cleanup deletion itself fails with a transport error, the cleanup record
carries that failed deletion, and the reported outcome is still the original
state-error failure. -/
theorem create_cleanup_never_masks_original_error_witness :
    (Daytona.create (Except.ok ()) envErrAt1
      (Except.error (DaytonaError.transport "cleanup failed")) none none false
      0 10 60).cleanup
      = some (Except.error (DaytonaError.transport "cleanup failed")) ∧
    (Daytona.create (Except.ok ()) envErrAt1
      (Except.error (DaytonaError.transport "cleanup failed")) none none false
      0 10 60).outcome
      = CreateOutcome.failed
          (createWrap 60 (DaytonaError.startFailed (some "out of disk"))) := by
  have hwit : Workspace.waitUntilStarted envErrAt1 10
      (effectiveTimeout none 60 - 0 / 1000)
      = WaitResult.stateError 2 (some "out of disk") := by
    have h := waitUntilStarted_error envErrAt1 (effectiveTimeout none 60 - 0 / 1000)
      1 10
      (by norm_num [effectiveTimeout]) (by decide) (by decide)
      (by
        intro i hi
        right
        interval_cases i <;>
          norm_num [elapsedAt, envErrAt1, checkInterval, effectiveTimeout])
      (by omega)
    simpa [envErrAt1] using h
  have h := create_cleanup_never_masks_original_error envErrAt1
    (Except.error (DaytonaError.transport "cleanup failed")) none none 0 10 60
    (DaytonaError.startFailed (some "out of disk"))
    (by norm_num [effectiveTimeout])
    rfl
    (by rw [hwit]; rfl)
  exact ⟨h.1.1, h.1.2.1⟩

/-- C8: executeSessionCommand returns a completed command's response as
success whatever its exit code (here a nonzero one), so a command that ran
and failed is not an error at this layer; every error the call can surface
is exactly an error of the transport call (HTTP failure, or the HTTP timeout
applied when a timeout argument was supplied), and the transport timeout
error is a different value from any success response, so a Timeout is
distinguishable from a nonzero exitCode. -/
theorem executeSessionCommand_nonzero_exit_is_success
    (transport : Option ℚ → Except DaytonaError SessionExecuteResponse)
    (timeout : Option ℚ) (r : SessionExecuteResponse) (c : Int)
    (_hc : r.exitCode = some c) (_hcnz : c ≠ 0)
    (hr : transport (sessionRequestOpts timeout) = Except.ok r) :
    Process.executeSessionCommand transport timeout = Except.ok r ∧
    (∀ transport' e,
      Process.executeSessionCommand transport' timeout = Except.error e →
      transport' (sessionRequestOpts timeout) = Except.error e) ∧
    Except.error DaytonaError.operationTimedOut
      ≠ (Except.ok r : Except DaytonaError SessionExecuteResponse) := by
  refine ⟨?_, ?_, ?_⟩
  · rw [Process.executeSessionCommand, hr]
  · intro transport' e h
    rw [Process.executeSessionCommand] at h
    exact h
  · intro h
    exact Except.noConfusion h

/-- C8 witness: a response with exit code 1 is returned as success by
executeSessionCommand. -/
theorem executeSessionCommand_nonzero_exit_is_success_witness :
    Process.executeSessionCommand
      (fun _ => Except.ok
        (⟨some "cmd-1", some "", some 1⟩ : SessionExecuteResponse)) none
      = Except.ok (⟨some "cmd-1", some "", some 1⟩ : SessionExecuteResponse) := by
  exact (executeSessionCommand_nonzero_exit_is_success
    (fun _ => Except.ok (⟨some "cmd-1", some "", some 1⟩ : SessionExecuteResponse))
    none (⟨some "cmd-1", some "", some 1⟩ : SessionExecuteResponse) 1 rfl
    (by norm_num) rfl).1

/-- C10: Daytona.create computes its effective timeout as
params.timeout || timeout, where the or-operator treats 0 as falsy: an
explicit params.timeout of 0 falls back to the timeout argument (60 by
default) instead of requesting an unbounded wait; create with
params.timeout 0 behaves exactly as with the field unset, and with the
default second argument no value of params.timeout produces the unbounded
budget 0. -/
theorem create_params_timeout_zero_falls_back :
    (∀ t : ℚ, effectiveTimeout (some 0) t = t) ∧
    effectiveTimeout (some 0) 60 = 60 ∧
    (∀ pt : ℚ, effectiveTimeout (some pt) 60 ≠ 0) ∧
    ∀ createWs env deleteWs autoStop asyncFlag createDur fuel timeout,
      Daytona.create createWs env deleteWs (some 0) autoStop asyncFlag
        createDur fuel timeout
      = Daytona.create createWs env deleteWs none autoStop asyncFlag
        createDur fuel timeout := by
  have he : ∀ t : ℚ, effectiveTimeout (some 0) t = t := by
    intro t
    simp [effectiveTimeout]
  refine ⟨he, he 60, ?_, ?_⟩
  · intro pt
    rw [effectiveTimeout]
    by_cases h : pt = 0
    · rw [if_pos h]
      norm_num
    · rw [if_neg h]
      exact h
  · intro createWs env deleteWs autoStop asyncFlag createDur fuel timeout
    have h : effectiveTimeout (some 0) timeout = effectiveTimeout none timeout := by
      simp [effectiveTimeout]
    rw [Daytona.create.eq_def, Daytona.create.eq_def, h]

end DaytonaSDK
